import Mathlib

/-!
# Verification of the answer-validation engine

This development embeds the answer-validation subsystem of the repository:

* the numeric engine functions `validate_arithmetic`, `validate_fraction`,
  `simplify_fraction`, `check_answer` and `batch_validate`, translated from the
  reference implementation in `lib/wasm-health-check.test.ts`
  (`createCorrectWasm`, the module documented as the "correct implementation"
  of the `MathWasm` interface in `lib/types.ts`);
* the health-check harness `runHealthCheck` and its per-case helpers,
  translated from `lib/wasm-health-check.ts`;
* the validation facade `validateAnswer` / `validateFallback`, translated from
  `lib/validation.ts`.

Modelling conventions:

* JavaScript `number` values are modelled as exact rationals (`ℚ`); `NaN`
  (from `parseFloat` failure or division by zero) is modelled as `none` in
  `Option ℚ`.  The `1e-9` / `1e-6` epsilons are modelled as the exact
  rationals `1/10^9` and `1/10^6`.  Binary-float rounding and `Infinity`
  overflow are outside the model.
* JavaScript `BigInt` values (used by the fraction functions) are modelled as
  `ℤ`; `BigInt` division truncates toward zero, modelled by `Int.tdiv`.
* Exceptions thrown by an engine are modelled by `Except String`, the string
  being the `String(e)` rendering that the harness stores.
* `performance.now()` wall-clock timing (the `duration` field) is real time
  and is not modelled.
-/

attribute [local semireducible] Rat.mul Rat.add Rat.sub Rat.inv

/-- One step of JavaScript `s.split(/\s+/)` over the character list: `acc` is
the current (reversed) token, `prevWs` records whether the previous character
was part of a whitespace run (so that a run yields a single boundary). -/
def jsSplitWsGo : List Char → List Char → Bool → List String
  | [], acc, _ => [String.mk acc.reverse]
  | c :: rest, acc, prevWs =>
    if c.isWhitespace then
      if prevWs then jsSplitWsGo rest acc true
      else String.mk acc.reverse :: jsSplitWsGo rest [] true
    else jsSplitWsGo rest (c :: acc) false

/-- JavaScript `s.split(/\s+/)`: split on maximal whitespace runs; a leading
(or trailing) run contributes a leading (or trailing) empty token, and
`"".split` gives `[""]`. -/
def jsSplitWs (s : String) : List String := jsSplitWsGo s.data [] false

/-- One step of JavaScript `s.split(sep)` for a single-character separator. -/
def jsSplitOnGo (sep : Char) : List Char → List Char → List String
  | [], acc => [String.mk acc.reverse]
  | c :: rest, acc =>
    if c = sep then String.mk acc.reverse :: jsSplitOnGo sep rest []
    else jsSplitOnGo sep rest (c :: acc)

/-- JavaScript `s.split(sep)` for a one-character separator such as `";"`:
`"".split(";") = [""]`, `"a;".split(";") = ["a", ""]`. -/
def jsSplitOn (sep : Char) (s : String) : List String := jsSplitOnGo sep s.data []

/-- JavaScript `s.trim()`: strip leading and trailing whitespace. -/
def jsTrim (s : String) : String :=
  String.mk (((s.data.dropWhile Char.isWhitespace).reverse.dropWhile Char.isWhitespace).reverse)

/-- Decimal value of a digit list (most significant first). -/
def digitsToNat (cs : List Char) : ℕ := cs.foldl (fun acc c => 10 * acc + (c.toNat - 48)) 0

/-- `10 ^ n`, structurally (denominator of the fractional part). -/
def pow10 : ℕ → ℕ
  | 0 => 1
  | n + 1 => 10 * pow10 n

/-- Character-level part of JavaScript `parseFloat`: skip leading whitespace,
read an optional sign, integer digits and an optional `.`-prefixed fraction
digit run, ignoring any trailing characters.  Returns
`(isNegative, integer digits, fraction digits)`, or `none` when no digit is
found (the `NaN` case).  Exponent (`e`) notation is not used by any input in
this code base and is not modelled. -/
def parseParts (s : String) : Option (Bool × List Char × List Char) :=
  let cs := s.data.dropWhile Char.isWhitespace
  let (neg, cs1) : Bool × List Char :=
    match cs with
    | '-' :: rest => (true, rest)
    | '+' :: rest => (false, rest)
    | _ => (false, cs)
  let intPart := cs1.takeWhile Char.isDigit
  let rest1 := cs1.dropWhile Char.isDigit
  let fracPart :=
    match rest1 with
    | '.' :: r => r.takeWhile Char.isDigit
    | _ => []
  if intPart = [] ∧ fracPart = [] then none
  else some (neg, intPart, fracPart)

/-- JavaScript `parseFloat`, as an exact rational; `none` models `NaN`. -/
def parseFloatQ (s : String) : Option ℚ :=
  (parseParts s).map fun p =>
    (if p.1 then (-1 : ℚ) else 1) *
      ((digitsToNat p.2.1 : ℚ) + (digitsToNat p.2.2 : ℚ) / (pow10 p.2.2.length : ℕ))

/-- JavaScript `Math.abs` on the rational model. -/
def jsAbs (q : ℚ) : ℚ := if q < 0 then -q else q

/-- The `1e-9` comparison epsilon of the engine, as an exact rational. -/
def epsilon : ℚ := 1 / 1000000000

/-- `Math.abs(result - answer) < 1e-9` where either side may be `NaN`
(modelled by `none`): any comparison against `NaN` is `false`. -/
def approxEq2 : Option ℚ → Option ℚ → Bool
  | some r, some x => decide (jsAbs (r - x) < epsilon)
  | _, _ => false

/-- `Math.abs(result - answer) < 1e-9` with a non-`NaN` candidate answer. -/
def approxEq (r : Option ℚ) (x : ℚ) : Bool := approxEq2 r (some x)

/-- Lift a binary operation to `NaN`-propagating operands. -/
def optBin (f : ℚ → ℚ → ℚ) : Option ℚ → Option ℚ → Option ℚ
  | some a, some b => some (f a b)
  | _, _ => none

/-- The operator `switch` shared by `validate_arithmetic`, `check_answer` and
`batch_validate` in `lib/wasm-health-check.test.ts`: `+`, `-`, `*` compute the
operation (`NaN` operands propagate), `/` yields `NaN`/rejection when the
right operand is (exactly) zero, and an unknown operator yields
`NaN`/rejection.  In the source the rejection is written either as an early
`return false` (`validate_arithmetic`) or as a `NaN` result that no candidate
can match (`check_answer`, `batch_validate`); both are observably the `none`
result here. -/
def arithResult (a : Option ℚ) (op : String) (b : Option ℚ) : Option ℚ :=
  if op = "+" then optBin (· + ·) a b
  else if op = "-" then optBin (· - ·) a b
  else if op = "*" then optBin (· * ·) a b
  else if op = "/" then (if b = some 0 then none else optBin (· / ·) a b)
  else none

/-- `validate_arithmetic(expr, answer)` from `createCorrectWasm` in
`lib/wasm-health-check.test.ts`: split on whitespace, require exactly three
tokens, evaluate `a op b` and accept when the result is within `1e-9` of the
candidate answer. -/
def validate_arithmetic (expr : String) (answer : ℚ) : Bool :=
  let parts := jsSplitWs expr
  if parts.length ≠ 3 then false
  else
    let a := parseFloatQ (parts.getD 0 "")
    let op := parts.getD 1 ""
    let b := parseFloatQ (parts.getD 2 "")
    approxEq (arithResult a op b) answer

/-- `validate_fraction(en, ed, sn, sd)` from `createCorrectWasm` in
`lib/wasm-health-check.test.ts`: either denominator zero is `false`,
otherwise exact cross multiplication `en * sd == sn * ed`. -/
def validate_fraction (en ed sn sd : ℤ) : Bool :=
  if ed = 0 ∨ sd = 0 then false
  else decide (en * sd = sn * ed)

/-- The recursive `gcd` helper of `lib/wasm-health-check.test.ts`
(`gcd(a, b) = b === 0 ? a : gcd(b, a % b)`), written with explicit fuel so
that it is structurally recursive; `jsGcd` supplies enough fuel. -/
def jsGcdFuel : ℕ → ℕ → ℕ → ℕ
  | 0, a, _ => a
  | fuel + 1, a, b => if b = 0 then a else jsGcdFuel fuel b (a % b)

/-- Euclid's algorithm exactly as in the source test helper. -/
def jsGcd (a b : ℕ) : ℕ := jsGcdFuel (b + 1) a b

/-- `simplify_fraction(num, den)` from `createCorrectWasm` in
`lib/wasm-health-check.test.ts`: `(0, 0)` sentinel for a zero denominator,
otherwise divide both components by the gcd of the absolute values and carry
the denominator's sign to the numerator (`BigInt` division truncates, hence
`Int.tdiv`; both divisions are exact). -/
def simplify_fraction (num den : ℤ) : ℤ × ℤ :=
  if den = 0 then (0, 0)
  else
    let g : ℤ := (jsGcd num.natAbs den.natAbs : ℕ)
    let sign : ℤ := if den < 0 then -1 else 1
    ((sign * num).tdiv g, (sign * den).tdiv g)

/-- The structured validation verdict (`ValidationResult` in `lib/state.ts`;
also the JSON object shape produced by `check_answer`, whose
serialize/parse round trip over the WASM boundary is modelled away). -/
structure ValidationResult where
  correct : Bool
  hint : String
  problem : String
  answer : String
  deriving Repr, DecidableEq

/-- `check_answer(type, problem, answer)` from `createCorrectWasm` in
`lib/wasm-health-check.test.ts`: only the `"arithmetic"` type is recognized;
its branch evaluates the problem like `validate_arithmetic` (without a token
count check: missing tokens parse as `NaN`) against `parseFloat(answer)`.
Any other type yields `correct = false` with the unknown-type hint. -/
def check_answer (ty problem answer : String) : ValidationResult :=
  if ty = "arithmetic" then
    let parts := jsSplitWs problem
    let result :=
      arithResult (parseFloatQ (parts.getD 0 "")) (parts.getD 1 "")
        (parseFloatQ (parts.getD 2 ""))
    let correct := approxEq2 result (parseFloatQ answer)
    { correct := correct
      hint := if correct then "Correct!"
        else "Try evaluating " ++ problem ++ " step by step."
      problem := problem
      answer := answer }
  else
    { correct := false
      hint := "Unknown problem type: " ++ ty
      problem := problem
      answer := answer }

/-- The loop body of `batch_validate` in `lib/wasm-health-check.test.ts`:
trim the problem, tokenize, evaluate, and compare with the trimmed, parsed
answer within `1e-9`. -/
def batchItem (p a : String) : Bool :=
  let parts := jsSplitWs (jsTrim p)
  approxEq2
    (arithResult (parseFloatQ (parts.getD 0 "")) (parts.getD 1 "")
      (parseFloatQ (parts.getD 2 "")))
    (parseFloatQ (jsTrim a))

/-- `batch_validate(problems, answers)` from `createCorrectWasm` in
`lib/wasm-health-check.test.ts`: split both inputs on `";"`; mismatched
cardinality is `0`, otherwise count the matching pairs. -/
def batch_validate (problems answers : String) : ℕ :=
  let probs := jsSplitOn ';' problems
  let ans := jsSplitOn ';' answers
  if probs.length ≠ ans.length then 0
  else (probs.zip ans).countP fun pa => batchItem pa.1 pa.2

/-- The engine surface consumed by the harness (`MathWasm` in
`lib/types.ts`).  Each function may throw: `Except String` models the thrown
exception via its `String(e)` rendering.  `check_answer` returns the
structured verdict (the JSON string of the source, parsed). -/
structure MathWasm where
  check_answer : String → String → String → Except String ValidationResult
  validate_arithmetic : String → ℚ → Except String Bool
  validate_fraction : ℤ → ℤ → ℤ → ℤ → Except String Bool
  simplify_fraction : ℤ → ℤ → Except String (ℤ × ℤ)
  batch_validate : String → String → Except String ℕ

/-- The field names of the `MathWasm` interface in `lib/types.ts` (the engine
surface the application consumes). -/
def mathWasmExports : List String :=
  ["check_answer", "validate_arithmetic", "validate_fraction",
   "simplify_fraction", "batch_validate"]

/-- One health-check case result (`HealthCheck` in `lib/wasm-health-check.ts`). -/
structure HealthCheck where
  name : String
  passed : Bool
  expected : String
  actual : String
  error : Option String := none
  deriving Repr, DecidableEq

/-- The aggregate health-check verdict (`HealthCheckResult` in
`lib/wasm-health-check.ts`).  The source's `duration` field is wall-clock
time (`performance.now()`), which is not modelled. -/
structure HealthCheckResult where
  passed : Bool
  checks : List HealthCheck
  deriving Repr, DecidableEq

/-- JavaScript `String(b)` for a boolean. -/
def boolStr : Bool → String
  | true => "true"
  | false => "false"

/-- `testArithmetic` from `lib/wasm-health-check.ts`: run
`wasm.validate_arithmetic` inside try/catch. -/
def testArithmetic (wasm : MathWasm) (name expr : String) (answer : ℚ)
    (expected : Bool) : HealthCheck :=
  match wasm.validate_arithmetic expr answer with
  | Except.ok result =>
    { name := name, passed := result == expected,
      expected := boolStr expected, actual := boolStr result }
  | Except.error e =>
    { name := name, passed := false,
      expected := boolStr expected, actual := "ERROR", error := some e }

/-- `testFraction` from `lib/wasm-health-check.ts` (the source converts its
number arguments with `BigInt(·)`; here they are integers already). -/
def testFraction (wasm : MathWasm) (name : String) (en ed sn sd : ℤ)
    (expected : Bool) : HealthCheck :=
  match wasm.validate_fraction en ed sn sd with
  | Except.ok result =>
    { name := name, passed := result == expected,
      expected := boolStr expected, actual := boolStr result }
  | Except.error e =>
    { name := name, passed := false,
      expected := boolStr expected, actual := "ERROR", error := some e }

/-- `testCheckAnswer` from `lib/wasm-health-check.ts` (the source
`JSON.parse`s the engine's string; the parsed record is modelled directly). -/
def testCheckAnswer (wasm : MathWasm) (name ty problem answer : String)
    (expectedCorrect : Bool) : HealthCheck :=
  match wasm.check_answer ty problem answer with
  | Except.ok parsed =>
    { name := name, passed := parsed.correct == expectedCorrect,
      expected := "correct:" ++ boolStr expectedCorrect,
      actual := "correct:" ++ boolStr parsed.correct }
  | Except.error e =>
    { name := name, passed := false,
      expected := "correct:" ++ boolStr expectedCorrect,
      actual := "ERROR", error := some e }

/-- `testBatchValidate` from `lib/wasm-health-check.ts`. -/
def testBatchValidate (wasm : MathWasm) (name problems answers : String)
    (expectedCount : ℕ) : HealthCheck :=
  match wasm.batch_validate problems answers with
  | Except.ok result =>
    { name := name, passed := result == expectedCount,
      expected := toString expectedCount, actual := toString result }
  | Except.error e =>
    { name := name, passed := false,
      expected := toString expectedCount, actual := "ERROR", error := some e }

/-- `runHealthCheck(wasm)` from `lib/wasm-health-check.ts`: the fixed,
ordered battery of exactly ten cases; `passed` is
`checks.every((c) => c.passed)`. -/
def runHealthCheck (wasm : MathWasm) : HealthCheckResult :=
  let checks : List HealthCheck :=
    [testArithmetic wasm "1 + 1 = 2" "1 + 1" 2 true,
     testArithmetic wasm "2 * 3 = 6" "2 * 3" 6 true,
     testArithmetic wasm "4 / 2 = 2" "4 / 2" 2 true,
     testArithmetic wasm "2 + 2 ≠ 5" "2 + 2" 5 false,
     testArithmetic wasm "5 / 0 = reject" "5 / 0" 0 false,
     testFraction wasm "1/2 == 2/4" 1 2 2 4 true,
     testFraction wasm "1/3 != 1/4" 1 3 1 4 false,
     testCheckAnswer wasm "check_answer correct" "arithmetic" "2 + 3" "5" true,
     testCheckAnswer wasm "check_answer incorrect" "arithmetic" "2 + 3" "6" false,
     testBatchValidate wasm "batch 3/3" "2 + 3;4 * 5;10 / 2" "5;20;5" 3]
  { passed := checks.all fun c => c.passed, checks := checks }

/-- The correct engine: the pure functions of `createCorrectWasm` lifted to
the throwing interface (they never throw). -/
def correctWasm : MathWasm where
  check_answer := fun ty p a => Except.ok (check_answer ty p a)
  validate_arithmetic := fun e x => Except.ok (validate_arithmetic e x)
  validate_fraction := fun en ed sn sd => Except.ok (validate_fraction en ed sn sd)
  simplify_fraction := fun n d => Except.ok (simplify_fraction n d)
  batch_validate := fun p a => Except.ok (batch_validate p a)

/-- An engine whose `validate_fraction` always throws (as in the
"handles WASM that throws exceptions" test), all other functions correct. -/
def fractionThrowsWasm : MathWasm :=
  { correctWasm with validate_fraction := fun _ _ _ _ => Except.error "Error: WASM crashed" }

/-- An exercise record (`Exercise` in `lib/state.ts`), as consumed by the
validation facade. -/
structure Exercise where
  id : ℕ
  type : String
  problem : String
  expectedAnswer : String
  deriving Repr, DecidableEq

/-- `validateFallback(exercise, answer)` from `lib/validation.ts`: exact
string comparison of the trimmed answer against the trimmed expected
answer. -/
def validateFallback (exercise : Exercise) (answer : String) : ValidationResult :=
  let isCorrect := jsTrim answer = jsTrim exercise.expectedAnswer
  { correct := isCorrect
    hint := if isCorrect then "Correct!"
      else "Try again. Hint: evaluate " ++ exercise.problem ++ " carefully."
    problem := exercise.problem
    answer := answer }

/-- `validateAnswer(wasm, exercise, answer)` from `lib/validation.ts`: with
an engine, delegate to its `check_answer` (the source's `validateWithWasm`
JSON-parses the engine's string; the parsed record is modelled directly);
without one, fall back to `validateFallback`. -/
def validateAnswer (wasm : Option (String → String → String → ValidationResult))
    (exercise : Exercise) (answer : String) : ValidationResult :=
  match wasm with
  | some w => w exercise.type exercise.problem answer
  | none => validateFallback exercise answer

/-- The expected output that the canonical snapshot battery
(`TEST_CASES` in `scripts/snapshot-physics.ts`, category `"edge"`) records
for `validate_arithmetic("1", answer=1)`. -/
def physicsSnapshotSingleTokenExpected : String := "true"

/-- The 64-bit signed integer range (the width the engine's fraction
functions receive over the WASM boundary). -/
def inInt64 (n : ℤ) : Prop := -(2 ^ 63) ≤ n ∧ n < 2 ^ 63

instance (n : ℤ) : Decidable (inInt64 n) := by unfold inInt64; infer_instance

/-- The exact value of a well-formed single-operator expression `a op b`
(the `compute(a, op, b)` of the spec), used to state what
`validate_arithmetic` accepts. -/
def evalBinOp (op : String) (a b : ℚ) : ℚ :=
  if op = "+" then a + b
  else if op = "-" then a - b
  else if op = "*" then a * b
  else if op = "/" then a / b
  else 0

/-- The fuelled Euclid helper computes `Nat.gcd` whenever the fuel exceeds
the second argument. -/
theorem jsGcdFuel_eq_gcd (fuel : ℕ) : ∀ a b : ℕ, b < fuel → jsGcdFuel fuel a b = Nat.gcd a b := by
  induction fuel with
  | zero => intro a b h; omega
  | succ n ih =>
    intro a b h
    unfold jsGcdFuel
    by_cases hb : b = 0
    · subst hb; simp
    · rw [if_neg hb]
      have hmod : a % b < n := lt_of_lt_of_le (Nat.mod_lt a (Nat.pos_of_ne_zero hb)) (Nat.lt_succ_iff.mp h)
      rw [ih b (a % b) hmod, Nat.gcd_comm b (a % b), ← Nat.gcd_rec b a, Nat.gcd_comm b a]

/-- The source's recursive `gcd` agrees with `Nat.gcd`. -/
theorem jsGcd_eq_gcd (a b : ℕ) : jsGcd a b = Nat.gcd a b :=
  jsGcdFuel_eq_gcd (b + 1) a b (Nat.lt_succ_self b)

/-- **C1.** For all 64-bit signed integers `en, ed, sn, sd`: when `ed ≠ 0`
and `sd ≠ 0`, `validate_fraction en ed sn sd` is `true` iff
`en * sd = sn * ed` exactly in integer arithmetic; and when `ed = 0` or
`sd = 0` (including both submitted fractions being `0/0`) it is `false`. -/
theorem claim_C1_validate_fraction (en ed sn sd : ℤ)
    (h1 : inInt64 en) (h2 : inInt64 ed) (h3 : inInt64 sn) (h4 : inInt64 sd) :
    (ed ≠ 0 → sd ≠ 0 → (validate_fraction en ed sn sd = true ↔ en * sd = sn * ed)) ∧
    ((ed = 0 ∨ sd = 0) → validate_fraction en ed sn sd = false) := by
  constructor
  · intro hed hsd
    simp [validate_fraction, hed, hsd]
  · intro h
    rcases h with h | h <;> simp [validate_fraction, h]

/-- Witness for C1: `1/2 = 2/4` is accepted; a zero submitted denominator is
rejected. -/
theorem claim_C1_witness :
    validate_fraction 1 2 2 4 = true ∧ validate_fraction 1 2 1 0 = false := by
  constructor
  · exact ((claim_C1_validate_fraction 1 2 2 4 (by decide) (by decide) (by decide)
      (by decide)).1 (by decide) (by decide)).mpr (by decide)
  · exact (claim_C1_validate_fraction 1 2 1 0 (by decide) (by decide) (by decide)
      (by decide)).2 (Or.inr rfl)

/-- **C2.** For every pair of 64-bit signed integers: a zero denominator
yields the `(0, 0)` sentinel (no division by zero happens — the model is
total); otherwise the result `(num', den')` has a positive (in particular
non-negative) denominator, is in lowest terms, and represents the same
fraction (`num' * den = num * den'`, which forces the sign of a negative
input denominator onto the numerator); and concretely
`simplify_fraction (-4) 8 = (-1, 2)`, not `(1, -2)`. -/
theorem claim_C2_simplify_fraction (num den : ℤ)
    (h1 : inInt64 num) (h2 : inInt64 den) :
    (den = 0 → simplify_fraction num den = (0, 0)) ∧
    (den ≠ 0 →
      0 < (simplify_fraction num den).2 ∧
      Int.gcd (simplify_fraction num den).1 (simplify_fraction num den).2 = 1 ∧
      (simplify_fraction num den).1 * den = num * (simplify_fraction num den).2) ∧
    simplify_fraction (-4) 8 = (-1, 2) := by
  refine ⟨fun h => by simp [simplify_fraction, h], fun hden => ?_, by decide⟩
  have hg : ((jsGcd num.natAbs den.natAbs : ℕ) : ℤ) = (Int.gcd num den : ℤ) := by
    rw [jsGcd_eq_gcd]; rfl
  set G : ℕ := Int.gcd num den with hG
  have hGpos : 0 < G := Int.gcd_pos_of_ne_zero_right num hden
  have hGz : (G : ℤ) ≠ 0 := by
    exact_mod_cast Nat.pos_iff_ne_zero.mp hGpos
  obtain ⟨n0, hn0⟩ : ((G : ℤ)) ∣ num := Int.gcd_dvd_left
  obtain ⟨d0, hd0⟩ : ((G : ℤ)) ∣ den := Int.gcd_dvd_right
  set sign : ℤ := if den < 0 then -1 else 1 with hsign
  have hsimp : simplify_fraction num den = (sign * n0, sign * d0) := by
    unfold simplify_fraction
    rw [if_neg hden]
    simp only [hg, ← hG, ← hsign]
    rw [hn0, hd0]
    rw [show sign * ((G : ℤ) * n0) = (G : ℤ) * (sign * n0) by ring,
        show sign * ((G : ℤ) * d0) = (G : ℤ) * (sign * d0) by ring,
        Int.mul_tdiv_cancel_left _ hGz, Int.mul_tdiv_cancel_left _ hGz]
  rw [hsimp]
  have hsignAbs : sign.natAbs = 1 := by
    rw [hsign]; split <;> rfl
  have hcop : Int.gcd n0 d0 = 1 := by
    have hGG : G = G * Int.gcd n0 d0 := by
      conv_lhs => rw [hG, hn0, hd0]
      rw [Int.gcd_mul_left]
      simp
    have : G * Int.gcd n0 d0 = G * 1 := by omega
    exact Nat.eq_of_mul_eq_mul_left hGpos this
  have hdpos : 0 < sign * d0 := by
    have hsd : 0 < sign * den := by
      rw [hsign]
      rcases lt_trichotomy den 0 with h | h | h
      · rw [if_pos h]; linarith
      · exact absurd h hden
      · rw [if_neg (not_lt.mpr (le_of_lt h))]; linarith
    have : sign * den = (G : ℤ) * (sign * d0) := by rw [hd0]; ring
    rw [this] at hsd
    have hGposZ : (0 : ℤ) < (G : ℤ) := by exact_mod_cast hGpos
    nlinarith
  refine ⟨hdpos, ?_, by rw [hn0, hd0]; ring⟩
  rw [show sign * n0 = sign * n0 by rfl]
  calc Int.gcd (sign * n0) (sign * d0) = sign.natAbs * Int.gcd n0 d0 := Int.gcd_mul_left ..
    _ = 1 := by rw [hsignAbs, hcop]

/-- Witness for C2 at `(num, den) = (-4, 8)` and `(5, 0)`. -/
theorem claim_C2_witness :
    simplify_fraction 5 0 = (0, 0) ∧
    0 < (simplify_fraction (-4) 8).2 ∧
    Int.gcd (simplify_fraction (-4) 8).1 (simplify_fraction (-4) 8).2 = 1 ∧
    (simplify_fraction (-4) 8).1 * 8 = (-4) * (simplify_fraction (-4) 8).2 := by
  refine ⟨(claim_C2_simplify_fraction 5 0 (by decide) (by decide)).1 rfl, ?_⟩
  exact ((claim_C2_simplify_fraction (-4) 8 (by decide) (by decide)).2.1 (by decide))

/-- **C4.** `validate_arithmetic` on a division with zero right operand is
`false` for every candidate answer: `"5 / 0"` and `"0 / 0"` are rejected
unconditionally (the guarded branch never produces a `NaN`/`Infinity`
match). -/
theorem claim_C4_division_by_zero :
    (∀ x : ℚ, validate_arithmetic "5 / 0" x = false) ∧
    (∀ x : ℚ, validate_arithmetic "0 / 0" x = false) :=
  ⟨fun _ => rfl, fun _ => rfl⟩

/-- **C5.** The embedded `validate_arithmetic` (the reference implementation
of `lib/wasm-health-check.test.ts`) rejects the one-token expression `"1"`
for every candidate answer, as the claim and spec state; the canonical
snapshot battery of `scripts/snapshot-physics.ts` instead records the
expected output `"true"` for `validate_arithmetic("1", answer=1)` — the
snapshot entry contradicts the code's behaviour at that input. -/
theorem claim_C5_single_token_expression :
    (∀ x : ℚ, validate_arithmetic "1" x = false) ∧
    boolStr (validate_arithmetic "1" 1) ≠ physicsSnapshotSingleTokenExpected :=
  ⟨fun _ => rfl, by decide⟩

/-- **C6.** `check_answer` always returns a structured result (the model is
total, hence never raises) echoing the submitted problem and answer
verbatim; an unrecognized type yields `correct = false` and exactly the
hint `"Unknown problem type: " ++ type`. -/
theorem claim_C6_check_answer_total (ty problem answer : String) :
    (check_answer ty problem answer).problem = problem ∧
    (check_answer ty problem answer).answer = answer ∧
    (ty ≠ "arithmetic" →
      (check_answer ty problem answer).correct = false ∧
      (check_answer ty problem answer).hint = "Unknown problem type: " ++ ty) := by
  refine ⟨?_, ?_, ?_⟩ <;> by_cases h : ty = "arithmetic" <;> simp [check_answer, h]

/-- Witness for C6 at the unknown type `"mystery"`. -/
theorem claim_C6_witness :
    (check_answer "mystery" "x" "y").problem = "x" ∧
    (check_answer "mystery" "x" "y").answer = "y" ∧
    (check_answer "mystery" "x" "y").correct = false ∧
    (check_answer "mystery" "x" "y").hint = "Unknown problem type: mystery" := by
  obtain ⟨hp, ha, hu⟩ := claim_C6_check_answer_total "mystery" "x" "y"
  obtain ⟨hc, hh⟩ := hu (by decide)
  exact ⟨hp, ha, hc, by rw [hh]; decide⟩

/-- **C8.** `validateAnswer` with no engine delegates to `validateFallback`,
whose verdict is exact string equality of the trimmed answer against the
trimmed expected answer (no numeric parsing), with hint `"Correct!"` on
match, the try-again hint referencing the problem on mismatch, and the
problem and the submitted (untrimmed) answer echoed. -/
theorem claim_C8_fallback_path (exercise : Exercise) (answer : String) :
    validateAnswer none exercise answer = validateFallback exercise answer ∧
    ((validateFallback exercise answer).correct = true ↔
      jsTrim answer = jsTrim exercise.expectedAnswer) ∧
    (validateFallback exercise answer).hint =
      (if jsTrim answer = jsTrim exercise.expectedAnswer then "Correct!"
       else "Try again. Hint: evaluate " ++ exercise.problem ++ " carefully.") ∧
    (validateFallback exercise answer).problem = exercise.problem ∧
    (validateFallback exercise answer).answer = answer := by
  refine ⟨rfl, ?_, ?_, rfl, rfl⟩ <;> simp [validateFallback]

/-- **C10.** The dispatcher recognizes only `"arithmetic"`: any other type —
in particular the exercise types `"fraction"` and `"equation"` — yields
`correct = false` with the unknown-type hint and no numeric validation; and
the engine surface (`MathWasm` in `lib/types.ts`) exposes no
`validate_equation` function. -/
theorem claim_C10_only_arithmetic (ty problem answer : String)
    (h : ty ≠ "arithmetic") :
    (check_answer ty problem answer).correct = false ∧
    (check_answer ty problem answer).hint = "Unknown problem type: " ++ ty ∧
    "validate_equation" ∉ mathWasmExports := by
  refine ⟨?_, ?_, by decide⟩ <;> simp [check_answer, h]

/-- Witness for C10 at the data model's other exercise types. -/
theorem claim_C10_witness :
    (check_answer "fraction" "1/2" "2/4").correct = false ∧
    (check_answer "equation" "x + 1 = 3" "2").correct = false ∧
    "validate_equation" ∉ mathWasmExports :=
  ⟨(claim_C10_only_arithmetic "fraction" "1/2" "2/4" (by decide)).1,
   (claim_C10_only_arithmetic "equation" "x + 1 = 3" "2" (by decide)).1,
   (claim_C10_only_arithmetic "fraction" "1/2" "2/4" (by decide)).2.2⟩

/-- `jsAbs` is the mathematical absolute value. -/
theorem jsAbs_eq_abs (q : ℚ) : jsAbs q = |q| := by
  unfold jsAbs
  rcases lt_or_ge q 0 with h | h
  · rw [if_pos h, abs_of_neg h]
  · rw [if_neg (not_lt.mpr h), abs_of_nonneg h]

/-- On numeric three-token input the operator switch computes the exact
operation (division guarded by a non-zero right operand). -/
theorem arithResult_evalBinOp (sop : String) (qa qb : ℚ)
    (hop : sop = "+" ∨ sop = "-" ∨ sop = "*" ∨ (sop = "/" ∧ qb ≠ 0)) :
    arithResult (some qa) sop (some qb) = some (evalBinOp sop qa qb) := by
  rcases hop with h | h | h | ⟨h, hz⟩ <;> subst h
  · rfl
  · rfl
  · rfl
  · simp [arithResult, evalBinOp, optBin, hz]

/-- **C3.** On an expression of the exact well-formed shape `a op b` (three
tokens, numeric operands, `op ∈ {+, -, *}` or `op = /` with a non-zero
divisor), `validate_arithmetic` accepts a candidate `x` iff
`|compute(a, op, b) - x| < 1e-9`; in particular it accepts the computed
value itself, and it rejects every candidate at distance `≥ 1e-6`. -/
theorem claim_C3_arithmetic_epsilon (expr sa sop sb : String) (qa qb x : ℚ)
    (hsplit : jsSplitWs expr = [sa, sop, sb])
    (ha : parseFloatQ sa = some qa) (hb : parseFloatQ sb = some qb)
    (hop : sop = "+" ∨ sop = "-" ∨ sop = "*" ∨ (sop = "/" ∧ qb ≠ 0)) :
    (validate_arithmetic expr x = true ↔ |evalBinOp sop qa qb - x| < 1 / 1000000000) ∧
    validate_arithmetic expr (evalBinOp sop qa qb) = true ∧
    (1 / 1000000 ≤ |evalBinOp sop qa qb - x| → validate_arithmetic expr x = false) := by
  have hva : ∀ y : ℚ, validate_arithmetic expr y =
      approxEq (arithResult (some qa) sop (some qb)) y := by
    intro y
    simp [validate_arithmetic, hsplit, ha, hb]
  have harith := arithResult_evalBinOp sop qa qb hop
  have hkey : ∀ y : ℚ, validate_arithmetic expr y = true ↔
      |evalBinOp sop qa qb - y| < 1 / 1000000000 := by
    intro y
    rw [hva y, harith]
    simp [approxEq, approxEq2, jsAbs_eq_abs, epsilon]
  refine ⟨hkey x, ?_, ?_⟩
  · rw [hkey]
    simp
  · intro hge
    rw [← Bool.not_eq_true, hkey x]
    intro hlt
    linarith

/-- Witness for C3 at `"7 / 2"` with candidates `7/2` (accepted) and `5`
(rejected at distance `3/2 ≥ 1e-6`). -/
theorem claim_C3_witness :
    validate_arithmetic "7 / 2" (evalBinOp "/" 7 2) = true ∧
    validate_arithmetic "7 / 2" 5 = false := by
  have h := claim_C3_arithmetic_epsilon "7 / 2" "7" "/" "2" 7 2 5
    (by decide) (by decide) (by decide) (Or.inr (Or.inr (Or.inr ⟨rfl, by norm_num⟩)))
  refine ⟨h.2.1, h.2.2 ?_⟩
  rw [show evalBinOp "/" 7 2 = (7 : ℚ) / 2 from rfl, abs_sub_comm,
    abs_of_nonneg (by norm_num)]
  norm_num

/-- **C9.** `batch_validate` returns `0` on mismatched `";"`-split
cardinalities, counts exactly `3` and `1` on the two canonical examples, and
evaluates each pair with the same rules as `validate_arithmetic` (for a
trimmed problem that tokenizes into three tokens and a parseable answer, the
per-item verdict is exactly `validate_arithmetic`'s). -/
theorem claim_C9_batch_validate :
    (∀ problems answers : String,
      (jsSplitOn ';' problems).length ≠ (jsSplitOn ';' answers).length →
      batch_validate problems answers = 0) ∧
    batch_validate "2 + 3;4 * 5;10 / 2" "5;20;5" = 3 ∧
    batch_validate "2 + 3;4 * 5" "5;21" = 1 ∧
    (∀ p a : String, ∀ x : ℚ,
      (jsSplitWs (jsTrim p)).length = 3 →
      parseFloatQ (jsTrim a) = some x →
      batchItem p a = validate_arithmetic (jsTrim p) x) := by
  refine ⟨?_, by decide, by decide, ?_⟩
  · intro ps as h
    simp [batch_validate, h]
  · intro p a x h3 hx
    obtain ⟨t1, t2, t3, hsplit⟩ := List.length_eq_three.mp h3
    simp [batchItem, validate_arithmetic, hsplit, hx, approxEq]

/-- Witness for C9: a 2-vs-1 cardinality mismatch returns `0`, and the
per-item rule agrees with `validate_arithmetic` on `"2 + 3"` vs `"5"`. -/
theorem claim_C9_witness :
    batch_validate "2 + 3;4 * 5" "5" = 0 ∧
    batchItem "2 + 3" "5" = validate_arithmetic "2 + 3" 5 := by
  constructor
  · exact claim_C9_batch_validate.1 "2 + 3;4 * 5" "5" (by decide)
  · exact claim_C9_batch_validate.2.2.2 "2 + 3" "5" 5 (by decide) (by decide)

/-- The harness records the case name regardless of outcome
(`testArithmetic`). -/
theorem testArithmetic_name (w : MathWasm) (n e : String) (x : ℚ) (exp : Bool) :
    (testArithmetic w n e x exp).name = n := by
  unfold testArithmetic
  cases w.validate_arithmetic e x <;> rfl

/-- The harness records the case name regardless of outcome
(`testFraction`). -/
theorem testFraction_name (w : MathWasm) (n : String) (en ed sn sd : ℤ) (exp : Bool) :
    (testFraction w n en ed sn sd exp).name = n := by
  unfold testFraction
  cases w.validate_fraction en ed sn sd <;> rfl

/-- The harness records the case name regardless of outcome
(`testCheckAnswer`). -/
theorem testCheckAnswer_name (w : MathWasm) (n ty p a : String) (exp : Bool) :
    (testCheckAnswer w n ty p a exp).name = n := by
  unfold testCheckAnswer
  cases w.check_answer ty p a <;> rfl

/-- The harness records the case name regardless of outcome
(`testBatchValidate`). -/
theorem testBatchValidate_name (w : MathWasm) (n p a : String) (exp : ℕ) :
    (testBatchValidate w n p a exp).name = n := by
  unfold testBatchValidate
  cases w.batch_validate p a <;> rfl

/-- **C7.** For every engine — the model is total, so `runHealthCheck` never
raises — the result has exactly ten checks, in the fixed battery order
(witnessed by the fixed name sequence), and the overall flag is the
conjunction of the ten per-check flags.  For the engine whose
`validate_fraction` always throws, exactly the two fraction checks fail,
with the stringified exception in their `error` field, while the other eight
run and pass, and the overall flag is `false`; the fully correct engine
passes all ten. -/
theorem claim_C7_health_check_isolation (wasm : MathWasm) :
    (runHealthCheck wasm).checks.length = 10 ∧
    ((runHealthCheck wasm).passed = true ↔
      ∀ c ∈ (runHealthCheck wasm).checks, c.passed = true) ∧
    (runHealthCheck wasm).checks.map (fun c => c.name) =
      ["1 + 1 = 2", "2 * 3 = 6", "4 / 2 = 2", "2 + 2 ≠ 5", "5 / 0 = reject",
       "1/2 == 2/4", "1/3 != 1/4", "check_answer correct",
       "check_answer incorrect", "batch 3/3"] ∧
    (runHealthCheck fractionThrowsWasm).checks.map (fun c => c.passed) =
      [true, true, true, true, true, false, false, true, true, true] ∧
    (runHealthCheck fractionThrowsWasm).checks.map (fun c => c.error) =
      [none, none, none, none, none, some "Error: WASM crashed",
       some "Error: WASM crashed", none, none, none] ∧
    (runHealthCheck fractionThrowsWasm).passed = false ∧
    (runHealthCheck correctWasm).passed = true := by
  refine ⟨rfl, ?_, ?_, by decide, by decide, by decide, by decide⟩
  · simp [runHealthCheck, List.all_eq_true]
  · simp [runHealthCheck, testArithmetic_name, testFraction_name,
      testCheckAnswer_name, testBatchValidate_name]

